import Mathlib

/-!
Verification development for the astrolabe engine-abstraction and
view-multiplexing layer.

The definitions below are a shallow embedding of the Rust sources:
  * `src/web/mod.rs`        — `ImageInfo`, the frame-buffer normalizer;
  * `src/web/engine/ultralight.rs` — the Ultralight backend adapter
    (view lookup/removal/creation, the two capture paths, and the
    keyboard translation table `iced_key_to_ultralight_key`);
  * `src/web/webview/view.rs` — the `WebView` multiplexer and its
    `Action` protocol (`ChangeView`, `CloseView`, `CreateView`);
  * `src/app.rs`            — the host's `Message::CloseTab` handler.

Rust panics (`expect`/`assert!`) are modelled as explicit error values:
a function that can panic returns `Option`/`Except`, and `none`/`.error`
marks the panic together with which `expect` message fired.  Machine
integers are modelled as `Nat` (all quantities involved are small and
non-negative on every path the theorems touch).  The randomness used by
`Ultralight::new_view` is modelled by passing the drawn value as an
explicit argument.
-/

/-- `PixelFormat` from `src/web/engine/mod.rs`. -/
inductive PixelFormat
  | Rgba
  | Bgra
deriving DecidableEq, Repr

/-- `ImageInfo` from `src/web/mod.rs`: a frame as a flat byte buffer plus
its dimensions.  Bytes are modelled as `Nat`. -/
structure ImageInfo where
  pixels : List Nat
  width : Nat
  height : Nat
deriving DecidableEq, Repr

/-- The per-pixel channel swap performed by `ImageInfo::new` for BGRA
input: `pixels.chunks_exact_mut(4).for_each(|chunk| chunk.swap(0, 2))`.
Exactly the complete 4-byte chunks are processed; a trailing remainder of
fewer than 4 bytes is left untouched, as with `chunks_exact_mut`. -/
def swapBgra : List Nat → List Nat
  | a :: b :: c :: d :: rest => c :: b :: a :: d :: swapBgra rest
  | [] => []
  | [a] => [a]
  | [a, b] => [a, b]
  | [a, b, c] => [a, b, c]

/-- `ImageInfo::new` from `src/web/mod.rs`.  The Rust code first runs
`assert_eq!(pixels.len() % 4, 0)` — modelled as returning `none` (panic)
when the length is not a multiple of 4 — then swaps channels for BGRA
input and stores the buffer together with the *caller-supplied* width and
height. -/
def ImageInfo.new (pixels : List Nat) (format : PixelFormat) (width height : Nat) :
    Option ImageInfo :=
  if pixels.length % 4 = 0 then
    some { pixels :=
             match format with
             | PixelFormat.Rgba => pixels
             | PixelFormat.Bgra => swapBgra pixels
         , width := width
         , height := height }
  else
    none

/-- `impl Default for ImageInfo` from `src/web/mod.rs`:
an 800×800 all-`255` buffer. -/
def ImageInfo.default : ImageInfo :=
  { pixels := List.replicate (800 * 800 * 4) 255, width := 800, height := 800 }

/-- `ImageInfo::blank` from `src/web/mod.rs`: an all-`255` (opaque white)
buffer of the requested dimensions. -/
def ImageInfo.blank (width height : Nat) : ImageInfo :=
  { pixels := List.replicate (width * height * 4) 255, width := width, height := height }

/-- The frame stored by `Ultralight::render` (ultralight.rs lines 140–144):
the locked surface bytes are normalized as `PixelFormat::Bgra`. -/
def renderCaptureFrame (pixels : List Nat) (w h : Nat) : Option ImageInfo :=
  ImageInfo.new pixels PixelFormat.Bgra w h

/-- The frame stored by `Ultralight::request_render` (ultralight.rs lines
153–156): the locked surface bytes are normalized as `PixelFormat::Rgba`. -/
def requestRenderCaptureFrame (pixels : List Nat) (w h : Nat) : Option ImageInfo :=
  ImageInfo.new pixels PixelFormat.Rgba w h

theorem swapBgra_cons (a b c d : Nat) (rest : List Nat) :
    swapBgra (a :: b :: c :: d :: rest) = c :: b :: a :: d :: swapBgra rest := rfl

theorem swapBgra_involutive : ∀ l : List Nat, swapBgra (swapBgra l) = l
  | _ :: _ :: _ :: _ :: rest => by
      rw [swapBgra_cons, swapBgra_cons, swapBgra_involutive rest]
  | [] => rfl
  | [_] => rfl
  | [_, _] => rfl
  | [_, _, _] => rfl

theorem swapBgra_length : ∀ l : List Nat, (swapBgra l).length = l.length
  | _ :: _ :: _ :: _ :: rest => by
      rw [swapBgra_cons]
      simp [swapBgra_length rest]
  | [] => rfl
  | [_] => rfl
  | [_, _] => rfl
  | [_, _, _] => rfl

/-- Byte-level characterization of `swapBgra` on the `k`-th complete
4-byte pixel: byte 0 and byte 2 are exchanged, bytes 1 and 3 stay. -/
theorem swapBgra_pixel :
    ∀ (k : Nat) (l : List Nat), 4 * k + 3 < l.length →
      (swapBgra l).get? (4 * k) = l.get? (4 * k + 2) ∧
      (swapBgra l).get? (4 * k + 2) = l.get? (4 * k) ∧
      (swapBgra l).get? (4 * k + 1) = l.get? (4 * k + 1) ∧
      (swapBgra l).get? (4 * k + 3) = l.get? (4 * k + 3)
  | 0, a :: b :: c :: d :: rest, _ => by
      refine ⟨rfl, rfl, rfl, rfl⟩
  | Nat.succ k, a :: b :: c :: d :: rest, h => by
      have h4 : 4 * Nat.succ k = 4 * k + 1 + 1 + 1 + 1 := by omega
      have hr : 4 * k + 3 < rest.length := by
        simp only [List.length_cons] at h
        omega
      have ih := swapBgra_pixel k rest hr
      rw [swapBgra_cons, h4]
      simpa using ih
  | k, [], h => by simp only [List.length_nil] at h; omega
  | k, [a], h => by simp only [List.length_cons, List.length_nil] at h; omega
  | k, [a, b], h => by simp only [List.length_cons, List.length_nil] at h; omega
  | k, [a, b, c], h => by simp only [List.length_cons, List.length_nil] at h; omega

/-- `KeyPress` from `src/web/engine/ultralight.rs`. -/
inductive KeyPress
  | Press
  | Unpress
deriving DecidableEq, Repr

/-- The named keys of `iced`'s `keyboard::key::Named` that appear in the
translation table of `ultralight.rs`, plus `OtherNamed` standing for every
other named key (the table's wildcard arm). -/
inductive NamedKey
  | Control | Shift | Enter | Tab | Space
  | ArrowDown | ArrowLeft | ArrowRight | ArrowUp
  | End | Home | Backspace | Delete | Insert | Escape
  | F1 | F2 | F3 | F4 | F5 | F6 | F7 | F8 | F9 | F10 | F11 | F12
  | OtherNamed
deriving DecidableEq, Repr

/-- `iced`'s `keyboard::Key`. -/
inductive Key
  | Named (k : NamedKey)
  | Character (s : String)
  | Unidentified
deriving DecidableEq, Repr

/-- The `ul_next` virtual key codes used by the translation table. -/
inductive VirtualKeyCode
  | Control | Shift | Return | Tab | Space
  | Down | Right | Up | Left | End | Home
  | Back | Delete | Insert | Escape
  | F1 | F2 | F3 | F4 | F5 | F6 | F7 | F8 | F9 | F10 | F11 | F12
  | A | B | C | D | E | F | G | H | I | J | K | L | M
  | N | O | P | Q | R | S | T | U | V | W | X | Y | Z
  | Key0 | Key1 | Key2 | Key3 | Key4 | Key5 | Key6 | Key7 | Key8 | Key9
  | OemComma | OemPeriod | OemMinus | OemPlus
  | Oem5 | Oem3 | Oem2 | Oem102 | Oem4 | Oem6
deriving DecidableEq, Repr

/-- `iced`'s `keyboard::Modifiers`, reduced to the four flags the adapter
reads (`alt()`, `control()`, `logo()`, `shift()`). -/
structure Modifiers where
  alt : Bool
  control : Bool
  logo : Bool
  shift : Bool
deriving DecidableEq, Repr

/-- `ul_next::event::KeyEventModifiers`. -/
structure KeyEventModifiers where
  alt : Bool
  ctrl : Bool
  meta : Bool
  shift : Bool
deriving DecidableEq, Repr

/-- `ul_next::event::KeyEventType` (the three variants the adapter emits). -/
inductive KeyEventType
  | RawKeyDown
  | KeyUp
  | Char
deriving DecidableEq, Repr

/-- The fields of `ul_next::event::KeyEventCreationInfo` that the adapter
populates with event-dependent data (the three trailing booleans are the
constants `false` in the source and are omitted). -/
structure KeyEvent where
  ty : KeyEventType
  modifiers : KeyEventModifiers
  virtual_key : VirtualKeyCode
  native_key : Nat
  text : String
  unmodified_text : String
deriving DecidableEq, Repr

/-- Rust's `str::is_ascii`: every byte (here: every character) is below 128. -/
def strIsAscii (s : String) : Bool :=
  s.toList.all (fun c => c.toNat < 128)

/-- The text derivation of `iced_key_to_ultralight_key` (ultralight.rs
lines 451–464): among named keys only `Space` carries a literal character;
character keys take the supplied input text as-is (empty when absent);
`Unidentified` yields no event. -/
def keyText (key : Key) (text : Option String) : Option String :=
  match key with
  | Key.Named k => if k = NamedKey.Space then some " " else some ""
  | Key.Character _ =>
      match text with
      | some t => some t
      | none => some ""
  | Key.Unidentified => none

/-- The `(virtual-key, native-scan-code)` table of
`iced_key_to_ultralight_key` (ultralight.rs lines 465–552). `none` models
the `_ => return None` arms. -/
def keyCodes (key : Key) : Option (VirtualKeyCode × Nat) :=
  match key with
  | Key.Named k =>
      match k with
      | NamedKey.Control => some (VirtualKeyCode.Control, 29)
      | NamedKey.Shift => some (VirtualKeyCode.Shift, 42)
      | NamedKey.Enter => some (VirtualKeyCode.Return, 28)
      | NamedKey.Tab => some (VirtualKeyCode.Tab, 15)
      | NamedKey.Space => some (VirtualKeyCode.Space, 57)
      | NamedKey.ArrowDown => some (VirtualKeyCode.Down, 108)
      | NamedKey.ArrowLeft => some (VirtualKeyCode.Right, 106)
      | NamedKey.ArrowRight => some (VirtualKeyCode.Up, 103)
      | NamedKey.ArrowUp => some (VirtualKeyCode.Left, 105)
      | NamedKey.End => some (VirtualKeyCode.End, 107)
      | NamedKey.Home => some (VirtualKeyCode.Home, 102)
      | NamedKey.Backspace => some (VirtualKeyCode.Back, 14)
      | NamedKey.Delete => some (VirtualKeyCode.Delete, 11)
      | NamedKey.Insert => some (VirtualKeyCode.Insert, 110)
      | NamedKey.Escape => some (VirtualKeyCode.Escape, 1)
      | NamedKey.F1 => some (VirtualKeyCode.F1, 59)
      | NamedKey.F2 => some (VirtualKeyCode.F2, 60)
      | NamedKey.F3 => some (VirtualKeyCode.F3, 61)
      | NamedKey.F4 => some (VirtualKeyCode.F4, 62)
      | NamedKey.F5 => some (VirtualKeyCode.F5, 63)
      | NamedKey.F6 => some (VirtualKeyCode.F6, 64)
      | NamedKey.F7 => some (VirtualKeyCode.F7, 65)
      | NamedKey.F8 => some (VirtualKeyCode.F8, 66)
      | NamedKey.F9 => some (VirtualKeyCode.F9, 67)
      | NamedKey.F10 => some (VirtualKeyCode.F10, 68)
      | NamedKey.F11 => some (VirtualKeyCode.F11, 69)
      | NamedKey.F12 => some (VirtualKeyCode.F12, 70)
      | NamedKey.OtherNamed => none
  | Key.Character s =>
      match s with
      | "a" => some (VirtualKeyCode.A, 30)
      | "b" => some (VirtualKeyCode.B, 48)
      | "c" => some (VirtualKeyCode.C, 46)
      | "d" => some (VirtualKeyCode.D, 32)
      | "e" => some (VirtualKeyCode.E, 18)
      | "f" => some (VirtualKeyCode.F, 33)
      | "g" => some (VirtualKeyCode.G, 34)
      | "h" => some (VirtualKeyCode.H, 35)
      | "i" => some (VirtualKeyCode.I, 23)
      | "j" => some (VirtualKeyCode.J, 36)
      | "k" => some (VirtualKeyCode.K, 37)
      | "l" => some (VirtualKeyCode.L, 38)
      | "m" => some (VirtualKeyCode.M, 50)
      | "n" => some (VirtualKeyCode.N, 49)
      | "o" => some (VirtualKeyCode.O, 24)
      | "p" => some (VirtualKeyCode.P, 25)
      | "q" => some (VirtualKeyCode.Q, 16)
      | "r" => some (VirtualKeyCode.R, 19)
      | "s" => some (VirtualKeyCode.S, 31)
      | "t" => some (VirtualKeyCode.T, 20)
      | "u" => some (VirtualKeyCode.U, 22)
      | "v" => some (VirtualKeyCode.V, 47)
      | "w" => some (VirtualKeyCode.W, 17)
      | "x" => some (VirtualKeyCode.X, 47)
      | "y" => some (VirtualKeyCode.Y, 21)
      | "z" => some (VirtualKeyCode.Z, 44)
      | "0" => some (VirtualKeyCode.Key0, 11)
      | "1" => some (VirtualKeyCode.Key1, 2)
      | "2" => some (VirtualKeyCode.Key2, 3)
      | "3" => some (VirtualKeyCode.Key3, 4)
      | "4" => some (VirtualKeyCode.Key4, 5)
      | "5" => some (VirtualKeyCode.Key5, 6)
      | "6" => some (VirtualKeyCode.Key6, 7)
      | "7" => some (VirtualKeyCode.Key7, 8)
      | "8" => some (VirtualKeyCode.Key8, 9)
      | "9" => some (VirtualKeyCode.Key9, 10)
      | "," => some (VirtualKeyCode.OemComma, 51)
      | "." => some (VirtualKeyCode.OemPeriod, 52)
      | ";" => some (VirtualKeyCode.OemPeriod, 39)
      | "-" => some (VirtualKeyCode.OemMinus, 12)
      | "_" => some (VirtualKeyCode.OemMinus, 74)
      | "+" => some (VirtualKeyCode.OemPlus, 78)
      | "=" => some (VirtualKeyCode.OemPlus, 78)
      | "\\" => some (VirtualKeyCode.Oem5, 43)
      | "|" => some (VirtualKeyCode.Oem5, 43)
      | "`" => some (VirtualKeyCode.Oem3, 41)
      | "?" => some (VirtualKeyCode.Oem2, 53)
      | "/" => some (VirtualKeyCode.Oem2, 53)
      | ">" => some (VirtualKeyCode.Oem102, 52)
      | "<" => some (VirtualKeyCode.Oem102, 52)
      | "[" => some (VirtualKeyCode.Oem4, 26)
      | "]" => some (VirtualKeyCode.Oem6, 27)
      | _ => none
  | Key.Unidentified => none

/-- The event-type classification of `iced_key_to_ultralight_key`
(ultralight.rs lines 566–575), applied to the already-derived text. -/
def classifyKeyEventType (ctrl : Bool) (txt : String) (press : KeyPress) :
    KeyEventType :=
  if ctrl then
    KeyEventType.RawKeyDown
  else if !txt.isEmpty && strIsAscii txt && press == KeyPress.Press then
    KeyEventType.Char
  else
    match press with
    | KeyPress.Press => KeyEventType.RawKeyDown
    | KeyPress.Unpress => KeyEventType.KeyUp

/-- `iced_key_to_ultralight_key` from `src/web/engine/ultralight.rs`
(lines 441–594).  The `location` argument is unused in the source and
omitted here.  `ul_next`'s `KeyEvent::new(..).ok()` wrapper is modelled as
always succeeding on the constructed record. -/
def iced_key_to_ultralight_key (press : KeyPress) (modified_key : Option Key)
    (key : Option Key) (modifiers : Modifiers) (text : Option String) :
    Option KeyEvent :=
  match key with
  | none => none
  | some key =>
      match keyText key text, keyCodes key with
      | some txt, some (vk, nk) =>
          let m : KeyEventModifiers :=
            { alt := modifiers.alt, ctrl := modifiers.control
            , meta := modifiers.logo, shift := modifiers.shift }
          some { ty := classifyKeyEventType m.ctrl txt press
               , modifiers := m
               , virtual_key := vk
               , native_key := nk
               , text := txt
               , unmodified_text :=
                   match modified_key with
                   | some (Key.Character c) => c
                   | _ => txt }
      | _, _ => none

/-- A viewport size (`iced::Size<u32>`). -/
structure ViewSize where
  width : Nat
  height : Nat
deriving DecidableEq, Repr

/-- The `expect`/panic sites of `WebView` in `src/web/webview/view.rs`,
identified by their messages:
`"Failed to find index"` (in `index_as_view_id`),
`"The current view index is not set."` and
`"Could find view index for view, may be closed."`
(both in `get_current_view_id`). -/
inductive PanicMsg
  | failedToFindIndex
  | currentViewNotSet
  | viewMayBeClosed
deriving DecidableEq, Repr

/-- Calls issued to the engine by the multiplexer, recorded in order.
`ViewId` is `usize` in the source, modelled as `Nat`. -/
inductive EngineCall
  | resize (w h : Nat)
  | requestRender (id : Nat) (w h : Nat)
  | removeView (id : Nat)
  | newView (w h : Nat) (id : Nat)
deriving DecidableEq, Repr

/-- The multiplexer state of `WebView` (`src/web/webview/view.rs`):
viewport size, optional current index, and the ordered `ViewId` sequence.
The callback and URL/title change-detection fields do not participate in
any state transition or panic modelled here and are omitted. -/
structure WVState where
  view_size : ViewSize
  current_view_index : Option Nat
  view_ids : List Nat
deriving DecidableEq, Repr

/-- `WebView::default()`: 1920×1080 viewport, no current view, no views. -/
def defaultWebView : WVState :=
  { view_size := { width := 1920, height := 1080 }
  , current_view_index := none
  , view_ids := [] }

/-- `WebView::index_as_view_id` (view.rs lines 67–72):
`view_ids.get(index).expect("Failed to find index")`. -/
def indexAsViewId (s : WVState) (index : Nat) : Except PanicMsg Nat :=
  match s.view_ids.get? index with
  | some id => Except.ok id
  | none => Except.error PanicMsg.failedToFindIndex

/-- `WebView::get_current_view_id` (view.rs lines 57–65). -/
def getCurrentViewId (s : WVState) : Except PanicMsg Nat :=
  match s.current_view_index with
  | none => Except.error PanicMsg.currentViewNotSet
  | some i =>
      match s.view_ids.get? i with
      | some id => Except.ok id
      | none => Except.error PanicMsg.viewMayBeClosed

/-- The resize-quirk double resize (view.rs lines 148–153 and 169–174):
grow the viewport by (+10, −10), resize, restore, resize. -/
def quirkCalls (sz : ViewSize) : List EngineCall :=
  [EngineCall.resize (sz.width + 10) (sz.height - 10),
   EngineCall.resize sz.width sz.height]

/-- The post-action force render (view.rs lines 231–234): after every
action except `Update`, if a current view exists it is re-rendered via
`get_current_view_id` (which may panic). -/
def finalRenderCalls (s : WVState) : Except PanicMsg (List EngineCall) :=
  match s.current_view_index with
  | none => Except.ok []
  | some _ => do
      let cid ← getCurrentViewId s
      Except.ok [EngineCall.requestRender cid s.view_size.width s.view_size.height]

/-- `Action::ChangeView(index)` (view.rs lines 146–158) followed by the
post-action render: double-resize quirk, force render of the target view
(panics via `index_as_view_id` when `index` is out of bounds), set it as
current, then the final render of the new current view. -/
def changeViewStep (s : WVState) (index : Nat) :
    Except PanicMsg (WVState × List EngineCall) := do
  let id ← indexAsViewId s index
  let calls := quirkCalls s.view_size ++
    [EngineCall.requestRender id s.view_size.width s.view_size.height]
  let s1 := { s with current_view_index := some index }
  let post ← finalRenderCalls s1
  Except.ok (s1, calls ++ post)

/-- `Action::CloseView(index)` (view.rs lines 159–187) followed by the
post-action render.  The source looks up the id (panicking when absent),
removes the sequence entry and the native view, and — only when
`index <= max(0, current-1)` — moves the current index to
`max(0, current-1)` with a quirk-resize and a forced render of that
position; finally the post-action render re-renders whatever
`current_view_index` now points at. -/
def closeViewStep (s : WVState) (index : Nat) :
    Except PanicMsg (WVState × List EngineCall) := do
  let id ← indexAsViewId s index
  let s1 := { s with view_ids := s.view_ids.eraseIdx index }
  let (s2, calls2) ←
    match s1.current_view_index with
    | none => Except.ok (s1, ([] : List EngineCall))
    | some cur => do
        let curIdx := if cur = 0 then 0 else cur - 1
        if index ≤ curIdx then do
          let rid ← indexAsViewId s1 curIdx
          Except.ok ({ s1 with current_view_index := some curIdx },
            quirkCalls s1.view_size ++
              [EngineCall.requestRender rid s1.view_size.width s1.view_size.height])
        else
          Except.ok (s1, ([] : List EngineCall))
  let post ← finalRenderCalls s2
  Except.ok (s2, EngineCall.removeView id :: calls2 ++ post)

/-- `Action::CreateView(page_type)` (view.rs lines 188–195) followed by
the post-action render.  The engine's `new_view` draws a random id and
returns it (no collision check); the multiplexer appends that id to
`view_ids`.  The drawn value is the explicit argument `rid`. -/
def createViewStep (s : WVState) (rid : Nat) :
    Except PanicMsg (WVState × List EngineCall) := do
  let s1 := { s with view_ids := s.view_ids ++ [rid] }
  let post ← finalRenderCalls s1
  Except.ok (s1, EngineCall.newView s.view_size.width s.view_size.height rid :: post)

/-- Dispatching one `CreateView` per element of `rids` (each element is
the id drawn inside `Ultralight::new_view` for that call). -/
def createViews (s : WVState) (rids : List Nat) : Except PanicMsg WVState :=
  rids.foldlM (fun st r => (createViewStep st r).map Prod.fst) s

/-- One view of the Ultralight adapter (`struct View` in ultralight.rs),
restricted to the fields the modelled operations read or write. -/
structure UlView where
  id : Nat
  last_frame : ImageInfo
  was_loading : Bool
deriving DecidableEq, Repr

/-- The Ultralight adapter state: `views: Vec<View>`. -/
structure Ultralight where
  views : List UlView
deriving DecidableEq, Repr

/-- `Ultralight::get_view` (ultralight.rs lines 115–120): linear lookup by
id; `none` models the panic
`expect("The requested View id was not found")`.  `get_view_mut`
(lines 122–127) performs the identical lookup. -/
def Ultralight.get_view (s : Ultralight) (id : Nat) : Option UlView :=
  s.views.find? (fun v => v.id == id)

/-- `Ultralight::remove_view` (ultralight.rs lines 220–222):
`self.views.retain(|view| view.id != id)`.  Total: it cannot signal
anything. -/
def Ultralight.remove_view (s : Ultralight) (id : Nat) : Ultralight :=
  { views := s.views.filter (fun v => v.id != id) }

/-- `Ultralight::new_view` (ultralight.rs lines 160–218), state part: a
fresh id is drawn from the thread RNG (modelled as the argument `rid`),
a native view and blank frame of the requested size are created, the view
is pushed, and the drawn id is returned unconditionally — no comparison
against live ids anywhere. -/
def Ultralight.new_view (s : Ultralight) (w h : Nat) (rid : Nat) :
    Ultralight × Nat :=
  ({ views := s.views ++ [{ id := rid, last_frame := ImageInfo.blank w h, was_loading := true }] },
   rid)

/-- The outcome of the host's `Message::CloseTab` handler. -/
inductive CloseTabOutcome
  | exitApp
  | dispatched (r : Except PanicMsg (WVState × List EngineCall))
  | noTab
deriving Repr

/-- `Message::CloseTab` from `src/app.rs` (lines 384–413), restricted to
the decision structure: when the nav item carries a view index, decrement
`num_views`; if fewer than one view remains, return `cosmic::iced::exit()`
*before* dispatching anything to the `WebView`; otherwise dispatch
`Action::CloseView(view_index)`.  Returns the outcome and the new
`num_views`. -/
def closeTab (num_views : Nat) (view_index : Option Nat) (wv : WVState) :
    CloseTabOutcome × Nat :=
  match view_index with
  | none => (CloseTabOutcome.noTab, num_views)
  | some vi =>
      let n := num_views - 1
      if n < 1 then
        (CloseTabOutcome.exitApp, n)
      else
        (CloseTabOutcome.dispatched (closeViewStep wv vi), n)

theorem createViews_of_no_current :
    ∀ (rids : List Nat) (s : WVState), s.current_view_index = none →
      createViews s rids = Except.ok { s with view_ids := s.view_ids ++ rids } := by
  intro rids
  induction rids with
  | nil =>
      intro s h
      simp only [createViews, List.foldlM, List.append_nil]
      rfl
  | cons r rs ih =>
      intro s h
      have hstep : createViewStep s r =
          Except.ok ({ s with view_ids := s.view_ids ++ [r] },
            [EngineCall.newView s.view_size.width s.view_size.height r]) := by
        simp only [createViewStep, finalRenderCalls, h]
        rfl
      have ih' := ih { s with view_ids := s.view_ids ++ [r] } h
      calc createViews s (r :: rs)
          = createViews { s with view_ids := s.view_ids ++ [r] } rs := by
            simp only [createViews, List.foldlM]
            rw [hstep]
            rfl
        _ = Except.ok { s with view_ids := s.view_ids ++ (r :: rs) } := by
            rw [ih']
            simp

/-- C1: the spec requires that closing a view at or below the current
index moves the current index to `max(0, current-1)` and force-renders
that view; in particular closing the view *at* the current index.  The
code compares the closed index against the already-decremented current
index (`let cur_idx = if cur_idx == 0 {0} else {cur_idx - 1}; if index <=
cur_idx`), so closing exactly the current index (current ≥ 1) neither
moves the index nor triggers the compensating render.  Evaluated at the
failing inputs: with views `[5,6,7]` and current index 1, `CloseView(1)`
leaves the current index at 1 — now denoting the view that was at index 2
(id 7) — and never force-renders view id 5 at the spec-required new index
0; with views `[5,6]` and current index 1, `CloseView(1)` panics
(`"Could find view index for view, may be closed."`). -/
theorem C1_close_at_current_eval :
    closeViewStep { view_size := { width := 1920, height := 1080 }
                  , current_view_index := some 1, view_ids := [5, 6, 7] } 1 =
      Except.ok ({ view_size := { width := 1920, height := 1080 }
                 , current_view_index := some 1, view_ids := [5, 7] },
                 [EngineCall.removeView 6, EngineCall.requestRender 7 1920 1080]) ∧
    closeViewStep { view_size := { width := 1920, height := 1080 }
                  , current_view_index := some 1, view_ids := [5, 6] } 1 =
      Except.error PanicMsg.viewMayBeClosed :=
  ⟨rfl, rfl⟩

/-- C2 counterexample: the claim asserts that the CloseView handling does
not panic when the view sequence becomes empty.  Dispatching
`CloseView(0)` to a multiplexer holding exactly one view (id 7, current
index 0) panics: after removing the only entry, the handler calls
`index_as_view_id(0)` on the now-empty sequence
(`expect("Failed to find index")`). -/
theorem C2_counterexample :
    closeViewStep { view_size := { width := 1920, height := 1080 }
                  , current_view_index := some 0, view_ids := [7] } 0 =
      Except.error PanicMsg.failedToFindIndex :=
  rfl

/-- C2 (amended): the graceful "no views remain" shutdown lives in the
host's `CloseTab` handler, not in the multiplexer.  `CloseTab` on the
last tab (`num_views = 1`) decrements the count and returns
`cosmic::iced::exit()` *before* dispatching any `CloseView`, so the host
path is a terminal signal — no crash, no view of index -1, not a no-op.
The multiplexer's own `CloseView` handling, by contrast, panics whenever
it is invoked on the last remaining view. -/
theorem C2_last_tab_exit :
    (∀ (wv : WVState) (vi : Nat),
        closeTab 1 (some vi) wv = (CloseTabOutcome.exitApp, 0)) ∧
    (∀ (sz : ViewSize) (id : Nat),
        closeViewStep { view_size := sz, current_view_index := some 0
                      , view_ids := [id] } 0 =
          Except.error PanicMsg.failedToFindIndex) :=
  ⟨fun _ _ => rfl, fun _ _ => rfl⟩

/-- C3 counterexample: the claim asserts that every Engine operation on an
absent `ViewId` signals an explicit ViewNotFound condition, in particular
`remove_view`.  But `Ultralight::remove_view` is
`self.views.retain(|view| view.id != id)` — on the absent id 7 (only id 5
is live) it returns normally with the view list unchanged: a silent
no-op, with no error signal of any kind. -/
theorem C3_counterexample :
    Ultralight.remove_view
        { views := [{ id := 5, last_frame := ImageInfo.blank 1 1, was_loading := true }] } 7 =
      { views := [{ id := 5, last_frame := ImageInfo.blank 1 1, was_loading := true }] } :=
  rfl

/-- C3 (amended): operations that resolve the id through
`get_view`/`get_view_mut` do signal the explicit panic
`"The requested View id was not found"` on an absent id (modelled as
`none`), but `remove_view` — implemented with `retain` — silently no-ops
on an absent id, leaving the state unchanged. -/
theorem C3_lookup_vs_remove :
    ∀ (s : Ultralight) (id : Nat), (∀ v ∈ s.views, v.id ≠ id) →
      Ultralight.get_view s id = none ∧ Ultralight.remove_view s id = s := by
  intro s id h
  constructor
  · rw [Ultralight.get_view, List.find?_eq_none]
    intro v hv
    simpa using h v hv
  · obtain ⟨vs⟩ := s
    rw [Ultralight.remove_view]
    simp only [Ultralight.mk.injEq]
    rw [List.filter_eq_self]
    intro v hv
    simpa using h v hv

theorem C3_lookup_vs_remove_witness :
    Ultralight.get_view
        { views := [{ id := 5, last_frame := ImageInfo.blank 1 1, was_loading := true }] } 9 =
      none ∧
    Ultralight.remove_view
        { views := [{ id := 5, last_frame := ImageInfo.blank 1 1, was_loading := true }] } 9 =
      { views := [{ id := 5, last_frame := ImageInfo.blank 1 1, was_loading := true }] } :=
  C3_lookup_vs_remove _ 9 (by decide)

/-- C4 counterexample: the claim asserts every returned `ViewId` avoids
collision with live ids, so N creations give pairwise-distinct ids.  The
id is `rand::thread_rng().gen()` with no check against live ids: in the
execution where the RNG draws 3 twice, two `CreateView` dispatches leave
the multiplexer's index sequence `[3, 3]` (length 2 but not
pairwise-distinct), and at the engine level the second `new_view` returns
id 3 while a view with id 3 is already live. -/
theorem C4_counterexample :
    createViews defaultWebView [3, 3] =
      Except.ok { defaultWebView with view_ids := [3, 3] } ∧
    ¬ List.Nodup [3, 3] ∧
    ((Ultralight.new_view { views := [] } 1920 1080 3).1.views.map UlView.id = [3] ∧
     (Ultralight.new_view (Ultralight.new_view { views := [] } 1920 1080 3).1
        1920 1080 3).2 = 3) :=
  ⟨rfl, by decide, rfl, rfl⟩

/-- C4 (amended): `new_view` returns exactly the freshly drawn random
value as the id, with no collision check, and the multiplexer appends it;
so after N `CreateView` dispatches the index sequence is precisely the
list of drawn values — its length is N, and the ids are pairwise distinct
iff the RNG draws were. -/
theorem C4_ids_are_rng_draws :
    ∀ rids : List Nat,
      createViews defaultWebView rids =
        Except.ok { defaultWebView with view_ids := rids } ∧
      (∀ st, createViews defaultWebView rids = Except.ok st →
        st.view_ids.length = rids.length ∧ (st.view_ids.Nodup ↔ rids.Nodup)) := by
  intro rids
  have hmain := createViews_of_no_current rids defaultWebView rfl
  refine ⟨by simpa [defaultWebView] using hmain, ?_⟩
  intro st hst
  rw [hmain] at hst
  have : st = { defaultWebView with view_ids := [] ++ rids } := by
    exact (Except.ok.injEq _ _).mp hst.symm
  subst this
  simp

theorem C4_ids_are_rng_draws_witness :
    createViews defaultWebView [1, 2] =
      Except.ok { defaultWebView with view_ids := [1, 2] } ∧
    ({ defaultWebView with view_ids := [1, 2] } : WVState).view_ids.length =
      [1, 2].length :=
  ⟨(C4_ids_are_rng_draws [1, 2]).1,
   ((C4_ids_are_rng_draws [1, 2]).2 _ (C4_ids_are_rng_draws [1, 2]).1).1⟩

/-- C5: `ChangeView(i)` for `i` outside `[0, N)` is rejected through the
explicit bounds check of `index_as_view_id`
(`view_ids.get(i).expect("Failed to find index")`): the dispatch ends in
that explicit flagged panic — it never produces a successor state, so the
index is never silently wrapped; and for `i` inside `[0, N)` the dispatch
succeeds, sets `i` as current and force-renders exactly the view at `i`
(the quirk double-resize, the immediate render, and the post-action
render). -/
theorem C5_changeview_bounds :
    ∀ (s : WVState) (i : Nat),
      (s.view_ids.length ≤ i →
        changeViewStep s i = Except.error PanicMsg.failedToFindIndex) ∧
      (i < s.view_ids.length →
        ∃ id, s.view_ids.get? i = some id ∧
          changeViewStep s i = Except.ok
            ({ s with current_view_index := some i },
             quirkCalls s.view_size ++
               [EngineCall.requestRender id s.view_size.width s.view_size.height,
                EngineCall.requestRender id s.view_size.width s.view_size.height])) := by
  intro s i
  constructor
  · intro h
    have hn : s.view_ids[i]? = none := List.getElem?_eq_none h
    simp only [changeViewStep, indexAsViewId, List.get?_eq_getElem?, hn]
    rfl
  · intro h
    have hid : s.view_ids[i]? = some (s.view_ids.get ⟨i, h⟩) :=
      List.getElem?_eq_getElem h
    refine ⟨s.view_ids.get ⟨i, h⟩, by rw [List.get?_eq_getElem?]; exact hid, ?_⟩
    simp only [changeViewStep, indexAsViewId, finalRenderCalls, getCurrentViewId,
      List.get?_eq_getElem?, hid]
    rfl

theorem C5_changeview_bounds_witness :
    changeViewStep { view_size := { width := 1920, height := 1080 }
                   , current_view_index := none, view_ids := [4] } 2 =
      Except.error PanicMsg.failedToFindIndex :=
  (C5_changeview_bounds
    { view_size := { width := 1920, height := 1080 }
    , current_view_index := none, view_ids := [4] } 2).1 (by decide)

/-- C6 counterexample: the claim asserts `pixels.len() == width*height*4`
is checked at every construction.  `ImageInfo::new` only asserts
`pixels.len() % 4 == 0`: an 8-byte buffer with `width = height = 1`
passes the assertion and constructs an `ImageInfo` whose buffer length 8
differs from `1*1*4 = 4`. -/
theorem C6_counterexample :
    ImageInfo.new (List.replicate 8 0) PixelFormat.Rgba 1 1 =
      some { pixels := List.replicate 8 0, width := 1, height := 1 } ∧
    (List.replicate 8 (0 : Nat)).length ≠ 1 * 1 * 4 :=
  ⟨rfl, by decide⟩

/-- C6 (amended): `Default` and `blank` establish
`pixels.len() = width*height*4` by construction, but `ImageInfo::new`
checks only `pixels.len() % 4 == 0` (panicking exactly on non-multiples
of 4) and preserves the input length and the caller's dimensions without
relating them. -/
theorem C6_construction_invariants :
    (∀ w h, (ImageInfo.blank w h).pixels.length = w * h * 4) ∧
    ImageInfo.default.pixels.length = 800 * 800 * 4 ∧
    (∀ px fmt w h, (ImageInfo.new px fmt w h).isSome ↔ px.length % 4 = 0) ∧
    (∀ px fmt w h img, ImageInfo.new px fmt w h = some img →
      img.pixels.length = px.length ∧ img.width = w ∧ img.height = h) := by
  refine ⟨?_, ?_, ?_, ?_⟩
  · intro w h
    exact List.length_replicate _ _
  · exact List.length_replicate _ _
  · intro px fmt w h
    rw [ImageInfo.new.eq_def]
    split
    · simpa
    · simpa
  · intro px fmt w h img himg
    rw [ImageInfo.new.eq_def] at himg
    split at himg
    · cases himg
      cases fmt
      · exact ⟨rfl, rfl, rfl⟩
      · exact ⟨swapBgra_length px, rfl, rfl⟩
    · cases himg

theorem C6_construction_invariants_witness :
    ((ImageInfo.new [1, 2, 3, 4] PixelFormat.Bgra 1 1).isSome ↔
      ([1, 2, 3, 4] : List Nat).length % 4 = 0) ∧
    ({ pixels := [3, 2, 1, 4], width := 1, height := 1 } : ImageInfo).pixels.length =
      ([1, 2, 3, 4] : List Nat).length :=
  ⟨C6_construction_invariants.2.2.1 [1, 2, 3, 4] PixelFormat.Bgra 1 1,
   (C6_construction_invariants.2.2.2 [1, 2, 3, 4] PixelFormat.Bgra 1 1
      { pixels := [3, 2, 1, 4], width := 1, height := 1 } rfl).1⟩

/-- C7 counterexample: the claim asserts that with ctrl active the event is
classified as a raw key-down/up *matching press/release*.  But the source
classifies every ctrl-modified event as `RawKeyDown`
(`if modifiers.ctrl { RawKeyDown }`), with no `KeyUp` branch: releasing
the "a" key with ctrl held yields `RawKeyDown`, not `KeyUp`. -/
theorem C7_counterexample :
    (iced_key_to_ultralight_key KeyPress.Unpress none (some (Key.Character "a"))
        { alt := false, control := true, logo := false, shift := false }
        none).map KeyEvent.ty = some KeyEventType.RawKeyDown ∧
    KeyEventType.RawKeyDown ≠ KeyEventType.KeyUp :=
  ⟨rfl, by decide⟩

/-- C7 (amended): for every translated keyboard event that yields a native
event — if the ctrl modifier is active the event is always classified as
raw key-down, for presses and releases alike (bypassing character
insertion); otherwise a press whose derived text is non-empty ASCII is
classified as a character-insertion event; otherwise a press is raw
key-down and a release is key-up. -/
theorem C7_classification :
    ∀ (press : KeyPress) (mk : Option Key) (key : Key) (mods : Modifiers)
      (text : Option String) (ev : KeyEvent),
      iced_key_to_ultralight_key press mk (some key) mods text = some ev →
      (mods.control = true → ev.ty = KeyEventType.RawKeyDown) ∧
      (mods.control = false →
        ∀ txt, keyText key text = some txt →
          ((txt.isEmpty = false ∧ strIsAscii txt = true ∧ press = KeyPress.Press) →
              ev.ty = KeyEventType.Char) ∧
          ((txt.isEmpty = true ∨ strIsAscii txt = false ∨ press = KeyPress.Unpress) →
              ev.ty = (match press with
                       | KeyPress.Press => KeyEventType.RawKeyDown
                       | KeyPress.Unpress => KeyEventType.KeyUp))) := by
  intro press mk key mods text ev hev
  rw [iced_key_to_ultralight_key.eq_def] at hev
  simp only at hev
  cases hkt : keyText key text with
  | none => rw [hkt] at hev; cases hkc : keyCodes key <;> rw [hkc] at hev <;> cases hev
  | some txt0 =>
      rw [hkt] at hev
      cases hkc : keyCodes key with
      | none => rw [hkc] at hev; cases hev
      | some p =>
          rw [hkc] at hev
          obtain ⟨vk, nk⟩ := p
          simp only at hev
          cases hev
          constructor
          · intro hc
            simp [classifyKeyEventType, hc]
          · intro hc txt htxt
            have hte : txt = txt0 := (Option.some.inj htxt).symm
            subst hte
            constructor
            · rintro ⟨he, ha, hp⟩
              simp [classifyKeyEventType, hc, he, ha, hp]
            · intro hd
              cases press with
              | Press =>
                  rcases hd with he | ha | hp
                  · simp [classifyKeyEventType, hc, he]
                  · simp [classifyKeyEventType, hc, ha]
                  · cases hp
              | Unpress =>
                  simp [classifyKeyEventType, hc]

theorem C7_classification_witness :
    (iced_key_to_ultralight_key KeyPress.Press none (some (Key.Character "a"))
        { alt := false, control := false, logo := false, shift := false }
        (some "a")).map KeyEvent.ty = some KeyEventType.Char := by
  have h := ((C7_classification KeyPress.Press none (Key.Character "a")
      { alt := false, control := false, logo := false, shift := false }
      (some "a") _ rfl).2 rfl "a" rfl).1 ⟨rfl, rfl, rfl⟩
  exact congrArg some h

/-- C8: the frame normalizer on a buffer whose length is a multiple of 4:
BGRA input swaps byte 0 and byte 2 of every 4-byte pixel (bytes 1 and 3
unchanged), RGBA input passes through byte-for-byte unchanged, and
applying the BGRA swap twice reproduces the original bytes exactly. -/
theorem C8_normalizer_roundtrip :
    ∀ (px : List Nat) (w h : Nat), px.length % 4 = 0 →
      ImageInfo.new px PixelFormat.Rgba w h =
        some { pixels := px, width := w, height := h } ∧
      ImageInfo.new px PixelFormat.Bgra w h =
        some { pixels := swapBgra px, width := w, height := h } ∧
      swapBgra (swapBgra px) = px ∧
      (∀ k, 4 * k + 3 < px.length →
        (swapBgra px).get? (4 * k) = px.get? (4 * k + 2) ∧
        (swapBgra px).get? (4 * k + 2) = px.get? (4 * k) ∧
        (swapBgra px).get? (4 * k + 1) = px.get? (4 * k + 1) ∧
        (swapBgra px).get? (4 * k + 3) = px.get? (4 * k + 3)) := by
  intro px w h hlen
  refine ⟨?_, ?_, swapBgra_involutive px, fun k hk => swapBgra_pixel k px hk⟩
  · rw [ImageInfo.new.eq_def, if_pos hlen]
  · rw [ImageInfo.new.eq_def, if_pos hlen]

theorem C8_normalizer_roundtrip_witness :
    ImageInfo.new [1, 2, 3, 4] PixelFormat.Bgra 1 1 =
      some { pixels := swapBgra [1, 2, 3, 4], width := 1, height := 1 } ∧
    swapBgra (swapBgra [1, 2, 3, 4]) = [1, 2, 3, 4] :=
  ⟨(C8_normalizer_roundtrip [1, 2, 3, 4] 1 1 (by decide)).2.1,
   (C8_normalizer_roundtrip [1, 2, 3, 4] 1 1 (by decide)).2.2.1⟩

/-- C9: the two capture paths disagree on pixel format: `render` stores
the surface bytes with bytes 0 and 2 of every pixel swapped (it passes
`PixelFormat::Bgra`), `request_render` stores them unchanged (it passes
`PixelFormat::Rgba`); hence for any surface buffer in which some pixel's
byte 0 differs from its byte 2, the frame stored by `render` differs from
the frame `request_render` would store for the identical bytes. -/
theorem C9_capture_paths_disagree :
    ∀ (px : List Nat) (w h k : Nat),
      px.length % 4 = 0 → 4 * k + 3 < px.length →
      px.get? (4 * k) ≠ px.get? (4 * k + 2) →
      renderCaptureFrame px w h =
        some { pixels := swapBgra px, width := w, height := h } ∧
      requestRenderCaptureFrame px w h =
        some { pixels := px, width := w, height := h } ∧
      renderCaptureFrame px w h ≠ requestRenderCaptureFrame px w h := by
  intro px w h k hlen hk hne
  have hb : renderCaptureFrame px w h =
      some { pixels := swapBgra px, width := w, height := h } := by
    rw [renderCaptureFrame, ImageInfo.new.eq_def, if_pos hlen]
  have hr : requestRenderCaptureFrame px w h =
      some { pixels := px, width := w, height := h } := by
    rw [requestRenderCaptureFrame, ImageInfo.new.eq_def, if_pos hlen]
  refine ⟨hb, hr, ?_⟩
  rw [hb, hr]
  intro heq
  have hpx : swapBgra px = px := congrArg ImageInfo.pixels (Option.some.inj heq)
  have := (swapBgra_pixel k px hk).1
  rw [hpx] at this
  exact hne this

theorem C9_capture_paths_disagree_witness :
    renderCaptureFrame [9, 0, 0, 0] 1 1 ≠ requestRenderCaptureFrame [9, 0, 0, 0] 1 1 :=
  (C9_capture_paths_disagree [9, 0, 0, 0] 1 1 0 (by decide) (by decide)
    (by decide)).2.2

/-- C10: the keyboard translation table maps the arrow keys to a scrambled
set of virtual key codes, independent of press/release, modifiers and
text: `ArrowDown ↦ Down` (native 108), but `ArrowLeft ↦ Right` (native
106), `ArrowRight ↦ Up` (native 103) and `ArrowUp ↦ Left` (native 105). -/
theorem C10_arrow_key_table :
    ∀ (press : KeyPress) (mk : Option Key) (mods : Modifiers) (text : Option String),
      ((iced_key_to_ultralight_key press mk (some (Key.Named NamedKey.ArrowDown))
          mods text).map (fun e => (e.virtual_key, e.native_key)) =
        some (VirtualKeyCode.Down, 108)) ∧
      ((iced_key_to_ultralight_key press mk (some (Key.Named NamedKey.ArrowLeft))
          mods text).map (fun e => (e.virtual_key, e.native_key)) =
        some (VirtualKeyCode.Right, 106)) ∧
      ((iced_key_to_ultralight_key press mk (some (Key.Named NamedKey.ArrowRight))
          mods text).map (fun e => (e.virtual_key, e.native_key)) =
        some (VirtualKeyCode.Up, 103)) ∧
      ((iced_key_to_ultralight_key press mk (some (Key.Named NamedKey.ArrowUp))
          mods text).map (fun e => (e.virtual_key, e.native_key)) =
        some (VirtualKeyCode.Left, 105)) := by
  intro press mk mods text
  cases mk with
  | none => exact ⟨rfl, rfl, rfl, rfl⟩
  | some mkey =>
      cases mkey <;> exact ⟨rfl, rfl, rfl, rfl⟩
